import Mathlib

/-!
Verification of the IronCurtain Python WebSocket adapter
(src/adapters/python/ironcurtain_client.py).

The adapter's message payloads are JSON-like Python values (dicts keyed by
strings, lists, strings, ints, bools, None).  We embed them as the inductive
type `Value` and give executable semantics to the Python operations the
adapter uses on them: `dict.get` (which raises `AttributeError` on a
non-dict receiver), `len`, `tuple(...)`, `==`, and truthiness.

Fallible Python code is embedded as `Except PyErr` (an exception being the
`.error` case); the stateful session code is embedded as explicit state
passing over `SessionState`, with the observable actions (WebSocket sends,
hook invocations, log lines) collected in an `Effect` trace.
-/

namespace IronCurtain

/-- A JSON-like Python value: None, bool, int, str, list, dict. -/
inductive Value where
  | null
  | bool (b : Bool)
  | int (n : Int)
  | str (s : String)
  | list (xs : List Value)
  | dict (kvs : List (String × Value))
deriving Repr

/-- Python exceptions raised by the operations the adapter uses. -/
inductive PyErr where
  | attributeError
  | typeError
  | valueError
deriving Repr, DecidableEq

/-- First-match lookup in an association list (Python dicts have unique
keys, so first-match agrees with Python `dict` lookup). -/
def lookupStr (k : String) : List (String × Value) → Option Value
  | [] => none
  | (k2, v) :: rest => if k2 == k then some v else lookupStr k rest

/-- `kvs.get(k, dflt)` on a known dict body. -/
def dgetV (kvs : List (String × Value)) (k : String) (dflt : Value) : Value :=
  (lookupStr k kvs).getD dflt

/-- Python `v.get(k, dflt)`: succeeds on a dict, raises `AttributeError`
on any other receiver (ints, lists, ... have no `.get`). -/
def pyGet (v : Value) (k : String) (dflt : Value) : Except PyErr Value :=
  match v with
  | .dict kvs => .ok (dgetV kvs k dflt)
  | _ => .error .attributeError

/-- Python `len(v)`: defined on lists, strings and dicts, `TypeError`
otherwise. -/
def pyLen : Value → Except PyErr Nat
  | .list xs => .ok xs.length
  | .str s => .ok s.length
  | .dict kvs => .ok kvs.length
  | _ => .error .typeError

/-- Python `tuple(v)`: iterates lists, strings (chars) and dicts (keys);
`TypeError` on non-iterables. -/
def pyTuple : Value → Except PyErr (List Value)
  | .list xs => .ok xs
  | .str s => .ok (s.toList.map fun c => .str (String.singleton c))
  | .dict kvs => .ok (kvs.map fun kv => .str kv.1)
  | _ => .error .typeError

mutual

/-- Python `==` on the values the adapter compares (scalars compare by
value with bool/int interchange; containers compare element-wise — the
adapter itself only ever compares scalars). -/
def pyEq : Value → Value → Bool
  | .null, .null => true
  | .bool a, .bool b => a == b
  | .bool a, .int b => (if a then (1 : Int) else 0) == b
  | .int a, .bool b => a == (if b then (1 : Int) else 0)
  | .int a, .int b => a == b
  | .str a, .str b => a == b
  | .list a, .list b => pyEqList a b
  | .dict a, .dict b => pyEqDict a b
  | _, _ => false

def pyEqList : List Value → List Value → Bool
  | [], [] => true
  | a :: as, b :: bs => pyEq a b && pyEqList as bs
  | _, _ => false

def pyEqDict : List (String × Value) → List (String × Value) → Bool
  | [], [] => true
  | (ka, va) :: as, (kb, vb) :: bs => ka == kb && pyEq va vb && pyEqDict as bs
  | _, _ => false

end

/-- Python truthiness: `None`, `False`, `0`, `""`, `[]`, `{}` are falsy. -/
def pyTruthy : Value → Bool
  | .null => false
  | .bool b => b
  | .int n => n != 0
  | .str s => !(s == "")
  | .list xs => !xs.isEmpty
  | .dict kvs => !kvs.isEmpty

/-- `GameState` (parsed fog-filtered game state).  Fields hold the raw
payload values exactly as Python stores them (the dataclass performs no
conversion except `tuple(...)` on `map_size`). -/
structure GameState where
  tick : Value
  game_time : Value
  credits : Value
  power_generated : Value
  power_consumed : Value
  own_units : Value
  own_buildings : Value
  enemy_visible_units : Value
  enemy_visible_buildings : Value
  frozen_actors : Value
  explored_percentage : Value
  map_name : Value
  map_size : List Value
  known_ore_fields : Value
deriving Repr

/-- `GameState.from_dict(data)`.  Mirrors the Python source: the four
nested `.get` receivers (`data`, `own`, `enemy`, `map_info`/`power`) raise
`AttributeError` when not dicts, and `tuple(map_info.get("size", ...))`
raises `TypeError` when the size value is not iterable. -/
def fromDict (data : Value) : Except PyErr GameState := do
  let own ← pyGet data "own" (.dict [])
  let enemy ← pyGet data "enemy" (.dict [])
  let map_info ← pyGet data "map" (.dict [])
  let power ← pyGet own "power" (.dict [])
  let tick ← pyGet data "tick" (.int 0)
  let game_time ← pyGet data "game_time" (.str "0:00")
  let credits ← pyGet own "credits" (.int 0)
  let power_generated ← pyGet power "generated" (.int 0)
  let power_consumed ← pyGet power "consumed" (.int 0)
  let own_units ← pyGet own "units" (.list [])
  let own_buildings ← pyGet own "buildings" (.list [])
  let enemy_visible_units ← pyGet enemy "visible_units" (.list [])
  let enemy_visible_buildings ← pyGet enemy "visible_buildings" (.list [])
  let frozen_actors ← pyGet enemy "frozen_actors" (.list [])
  let explored_percentage ← pyGet own "explored_percentage" (.int 0)
  let map_name ← pyGet map_info "name" (.str "Unknown")
  let sizeRaw ← pyGet map_info "size" (.list [.int 128, .int 128])
  let map_size ← pyTuple sizeRaw
  let known_ore_fields ← pyGet map_info "known_ore_fields" (.list [])
  pure { tick := tick, game_time := game_time, credits := credits,
         power_generated := power_generated, power_consumed := power_consumed,
         own_units := own_units, own_buildings := own_buildings,
         enemy_visible_units := enemy_visible_units,
         enemy_visible_buildings := enemy_visible_buildings,
         frozen_actors := frozen_actors,
         explored_percentage := explored_percentage,
         map_name := map_name, map_size := map_size,
         known_ore_fields := known_ore_fields }

/-- `GameState.unit_count`: `len(self.own_units)`. -/
def unitCount (g : GameState) : Except PyErr Nat := pyLen g.own_units

/-- `GameState.building_count`: `len(self.own_buildings)`. -/
def buildingCount (g : GameState) : Except PyErr Nat := pyLen g.own_buildings

/-- `MatchInfo` (information about the current match); fields hold the raw
payload values. -/
structure MatchInfo where
  match_id : Value
  map_name : Value
  faction : Value
  opponent : Value
  settings : Value
deriving Repr

/-- The player-scanning `for` loop of `_play_match`: each player record is
probed with `p.get("agent_id")` (raising on a non-dict record); the last
record matching our agent id becomes `our_player`, and the last non-matching
record's `agent_name` (default "Unknown") becomes `opponent_name`. -/
def findPlayers (agentId : String) :
    List Value → Option Value → Value → Except PyErr (Option Value × Value)
  | [], our, opp => .ok (our, opp)
  | p :: rest, our, opp => do
    let pid ← pyGet p "agent_id" .null
    if pyEq pid (.str agentId) then
      findPlayers agentId rest (some p) opp
    else
      let nm ← pyGet p "agent_name" (.str "Unknown")
      findPlayers agentId rest our nm

/-- The match-entry step of `_play_match`: builds `MatchInfo` from the
match-found payload.  `faction` reads `our_player.get("faction","random")`
guarded by `if our_player` (Python truthiness, so an empty player record
also falls back to "random"). -/
def extractMatchInfo (agentId : String) (matchData : Value) :
    Except PyErr MatchInfo := do
  let match_id ← pyGet matchData "id" (.str "unknown")
  let playersV ← pyGet matchData "players" (.list [])
  let map_name ← pyGet matchData "map" (.str "Unknown")
  let players ← pyTuple playersV
  let found ← findPlayers agentId players none (.str "Unknown")
  let faction ←
    match found.1 with
    | some op => if pyTruthy op then pyGet op "faction" (.str "random")
                 else .ok (.str "random")
    | none => .ok (.str "random")
  let settings ← pyGet matchData "settings" (.dict [])
  pure { match_id := match_id, map_name := map_name, faction := faction,
         opponent := found.2, settings := settings }

/-- Mutable per-agent session state touched by `_handle_match_message`. -/
structure SessionState where
  wins : Nat
  losses : Nat
  match_result : Option Value
  game_state : Option GameState
deriving Repr

/-- Observable actions of the match session: WebSocket sends, hook
invocations, and log lines. -/
inductive Effect where
  | send (msg : Value)
  | callGameState (g : GameState)
  | callMatchEnd (result : Value)
  | callViolation (violations : Value)
  | callChat (sender message : Value)
  | log (line : String)
deriving Repr

/-- The orders message `_handle_match_message` sends when the strategy
returns a non-empty order list. -/
def ordersMsg (agentId : String) (orders : List Value) : Value :=
  .dict [("type", .str "orders"), ("agent_id", .str agentId),
         ("orders", .list orders)]

/-- The `get_state` probe `_play_match` sends on a receive timeout. -/
def getStateMsg (agentId : String) : Value :=
  .dict [("type", .str "get_state"), ("agent_id", .str agentId)]

/-- The strategy callback `on_game_state`: may return an order list or
raise. -/
def Strategy : Type := GameState → Except PyErr (List Value)

/-- `IronCurtainAgent._handle_match_message`.  Returns the updated session
state, the effects emitted before returning or raising, and the exception
if one was raised (effects emitted before the raise are kept, matching
Python's evaluation order: `self.game_state` is assigned before the
callback runs, and the callback is invoked before the orders send). -/
def handleMatchMessage (agentId : String) (strat : Strategy)
    (st : SessionState) (msg : Value) :
    SessionState × List Effect × Option PyErr :=
  match pyGet msg "type" (.str "") with
  | .error e => (st, [], some e)
  | .ok msgType =>
    if pyEq msgType (.str "state_update") || pyEq msgType (.str "state_response") then
      match pyGet msg "state" (.dict []) with
      | .error e => (st, [], some e)
      | .ok stateData =>
        match fromDict stateData with
        | .error e => (st, [], some e)
        | .ok g =>
          let st2 := { st with game_state := some g }
          match strat g with
          | .error e => (st2, [.callGameState g], some e)
          | .ok orders =>
            if pyTruthy (.list orders) then
              (st2, [.callGameState g, .send (ordersMsg agentId orders)], none)
            else
              (st2, [.callGameState g], none)
    else if pyEq msgType (.str "game_end") then
      match pyGet msg "result" (.str "unknown") with
      | .error e => (st, [], some e)
      | .ok result =>
        let st2 := { st with match_result := some msg }
        let st3 :=
          if pyEq result (.str "victory") then { st2 with wins := st2.wins + 1 }
          else if pyEq result (.str "defeat") then { st2 with losses := st2.losses + 1 }
          else st2
        (st3, [.callMatchEnd msg], none)
    else if pyEq msgType (.str "order_violations") then
      match pyGet msg "violations" (.list []) with
      | .error e => (st, [], some e)
      | .ok violations => (st, [.callViolation violations], none)
    else if pyEq msgType (.str "chat") then
      match pyGet msg "from" (.str "?"), pyGet msg "message" (.str "") with
      | .ok sender, .ok message => (st, [.callChat sender message], none)
      | .error e, _ => (st, [], some e)
      | _, .error e => (st, [], some e)
    else if pyEq msgType (.str "connected") || pyEq msgType (.str "game_start") then
      (st, [.log "Match event"], none)
    else
      (st, [], none)

/-- An inbound event of the match-session game loop: a received (and
JSON-decoded) message, or a receive timeout. -/
inductive Inbound where
  | msg (v : Value)
  | timeout
deriving Repr

/-- How the match-session game loop ended. -/
inductive SessionEnd where
  /-- Broke out of the loop on a `game_end` message (normal exit). -/
  | gameEnd
  /-- An exception escaped the loop and was caught and logged by
  `_play_match`'s outer handler; the session is over. -/
  | errored
  /-- The inbound event list was exhausted with the session still playing. -/
  | playing
deriving Repr, DecidableEq

/-- The game loop of `IronCurtainAgent._play_match` over a list of inbound
events: a timeout sends one `get_state` probe and keeps waiting; a message
is handled by `_handle_match_message`, after which the loop breaks exactly
when the message type equals "game_end"; an exception escaping the handler
is caught by the outer `except`, logged as a match error, and ends the
session. -/
def playLoop (agentId : String) (strat : Strategy) :
    SessionState → List Inbound → SessionState × List Effect × SessionEnd
  | st, [] => (st, [], .playing)
  | st, .timeout :: rest =>
    let r := playLoop agentId strat st rest
    (r.1, .send (getStateMsg agentId) :: r.2.1, r.2.2)
  | st, .msg m :: rest =>
    let h := handleMatchMessage agentId strat st m
    match h.2.2 with
    | some _ => (h.1, h.2.1 ++ [.log "Match error"], .errored)
    | none =>
      match pyGet m "type" .null with
      | .error _ => (h.1, h.2.1 ++ [.log "Match error"], .errored)
      | .ok t =>
        if pyEq t (.str "game_end") then (h.1, h.2.1, .gameEnd)
        else
          let r := playLoop agentId strat h.1 rest
          (r.1, h.2.1 ++ r.2.1, r.2.2)

/-- An inbound event of the queue-session wait loop: a received (and
JSON-decoded) message, or a receive timeout. -/
inductive QInbound where
  | msg (v : Value)
  | timeout
deriving Repr

/-- The wait loop of `IronCurtainAgent._wait_for_match` over a list of
inbound events: returns the match payload `msg.get("data", {})` on a
`match_found` event, `None` on a `queue_timeout` event, keeps waiting on a
receive timeout or any other message, and `None` when the loop ends.  An
exception (e.g. `.get` on a non-dict message) is caught by the outer
handler, which returns `None`. -/
def waitForMatch : List QInbound → Option Value
  | [] => none
  | .timeout :: rest => waitForMatch rest
  | .msg m :: rest =>
    match pyGet m "event" .null with
    | .error _ => none
    | .ok ev =>
      if pyEq ev (.str "match_found") then
        match pyGet m "data" (.dict []) with
        | .error _ => none
        | .ok d => some d
      else if pyEq ev (.str "queue_timeout") then none
      else waitForMatch rest

/-- One queue→match cycle's worth of inbound events: what the queue channel
delivers while waiting, and what the match channel delivers if a match is
entered. -/
structure Cycle where
  qevents : List QInbound
  minbounds : List Inbound

/-- Top-level actions of `_main_loop`'s queue→match loop. -/
inductive TopAction where
  /-- `_join_queue` was called. -/
  | joinQueue
  /-- `_play_match` was entered with this match payload. -/
  | enterMatch (matchData : Value)
  /-- The match session ended with this outcome. -/
  | matchDone (outcome : SessionEnd)
deriving Repr

/-- The queue→match loop of `IronCurtainAgent._main_loop`: each cycle joins
the queue, waits for a match, and skips to the next cycle (`continue`) when
`_wait_for_match` returns a falsy payload (`None` or an empty dict);
otherwise it plays the match, threading the session counters, and then
proceeds to the next cycle. -/
def mainLoopTrace (agentId : String) (strat : Strategy) :
    SessionState → List Cycle → List TopAction
  | _, [] => []
  | st, c :: rest =>
    .joinQueue ::
      match waitForMatch c.qevents with
      | none => mainLoopTrace agentId strat st rest
      | some d =>
        if pyTruthy d then
          let r := playLoop agentId strat st c.minbounds
          .enterMatch d :: .matchDone r.2.2 :: mainLoopTrace agentId strat r.1 rest
        else
          mainLoopTrace agentId strat st rest

/-- A strategy that always returns no orders. -/
def noOrdersStrat : Strategy := fun _ => .ok []

/-- A strategy that always returns one opaque order. -/
def oneOrderStrat : Strategy := fun _ => .ok [.dict [("type", .str "stop")]]

/-- A strategy that always raises. -/
def raisingStrat : Strategy := fun _ => .error .valueError

/-- Whether a value is a Python dict. -/
def isDict : Value → Bool
  | .dict _ => true
  | _ => false

/-- The body of a dict value (junk `[]` on non-dicts). -/
def asDict : Value → List (String × Value)
  | .dict kvs => kvs
  | _ => []

/-- Whether `tuple(v)` succeeds (lists, strings and dicts iterate). -/
def iterable : Value → Bool
  | .list _ => true
  | .str _ => true
  | .dict _ => true
  | _ => false

/-- Total companion of `pyTuple`, agreeing with it on iterable values. -/
def tupleList : Value → List Value
  | .list xs => xs
  | .str s => s.toList.map fun c => .str (String.singleton c)
  | .dict kvs => kvs.map fun kv => .str kv.1
  | _ => []

/-- The shape condition under which `from_dict` raises no exception: the
`own`, `enemy` and `map` entries are dicts when present (as is `own.power`),
and `map.size` is iterable when present. -/
def wellShaped (kvs : List (String × Value)) : Bool :=
  isDict (dgetV kvs "own" (.dict [])) &&
  isDict (dgetV kvs "enemy" (.dict [])) &&
  isDict (dgetV kvs "map" (.dict [])) &&
  isDict (dgetV (asDict (dgetV kvs "own" (.dict []))) "power" (.dict [])) &&
  iterable (dgetV (asDict (dgetV kvs "map" (.dict []))) "size"
    (.list [.int 128, .int 128]))

/-- The `GameState` that `from_dict` builds from a well-shaped payload:
every field is the corresponding nested lookup, falling back to the
source's default when the key is absent. -/
def mkGS (kvs : List (String × Value)) : GameState :=
  { tick := dgetV kvs "tick" (.int 0),
    game_time := dgetV kvs "game_time" (.str "0:00"),
    credits := dgetV (asDict (dgetV kvs "own" (.dict []))) "credits" (.int 0),
    power_generated :=
      dgetV (asDict (dgetV (asDict (dgetV kvs "own" (.dict []))) "power" (.dict [])))
        "generated" (.int 0),
    power_consumed :=
      dgetV (asDict (dgetV (asDict (dgetV kvs "own" (.dict []))) "power" (.dict [])))
        "consumed" (.int 0),
    own_units := dgetV (asDict (dgetV kvs "own" (.dict []))) "units" (.list []),
    own_buildings := dgetV (asDict (dgetV kvs "own" (.dict []))) "buildings" (.list []),
    enemy_visible_units :=
      dgetV (asDict (dgetV kvs "enemy" (.dict []))) "visible_units" (.list []),
    enemy_visible_buildings :=
      dgetV (asDict (dgetV kvs "enemy" (.dict []))) "visible_buildings" (.list []),
    frozen_actors := dgetV (asDict (dgetV kvs "enemy" (.dict []))) "frozen_actors" (.list []),
    explored_percentage :=
      dgetV (asDict (dgetV kvs "own" (.dict []))) "explored_percentage" (.int 0),
    map_name := dgetV (asDict (dgetV kvs "map" (.dict []))) "name" (.str "Unknown"),
    map_size :=
      tupleList (dgetV (asDict (dgetV kvs "map" (.dict []))) "size"
        (.list [.int 128, .int 128])),
    known_ore_fields :=
      dgetV (asDict (dgetV kvs "map" (.dict []))) "known_ore_fields" (.list []) }

/-- The `GameState` built from an empty payload: every field at its
default. -/
def defaultGS : GameState :=
  { tick := .int 0, game_time := .str "0:00", credits := .int 0,
    power_generated := .int 0, power_consumed := .int 0,
    own_units := .list [], own_buildings := .list [],
    enemy_visible_units := .list [], enemy_visible_buildings := .list [],
    frozen_actors := .list [], explored_percentage := .int 0,
    map_name := .str "Unknown", map_size := [.int 128, .int 128],
    known_ore_fields := .list [] }

/-- The Scenario B match-found payload from the spec. -/
def scenarioBPayload : Value :=
  .dict [("id", .str "m1"),
         ("players", .list
           [.dict [("agent_id", .str "a1"), ("faction", .str "soviet")],
            .dict [("agent_id", .str "a2"), ("agent_name", .str "Foe")]]),
         ("map", .str "Tundra")]

/-- The Scenario C game-end message. -/
def gameEndVictory : Value :=
  .dict [("type", .str "game_end"), ("result", .str "victory")]

/-- An order-violations message carrying the given violation list. -/
def violationsMsg (vs : List Value) : Value :=
  .dict [("type", .str "order_violations"), ("violations", .list vs)]

/-- A queue-channel inbound event that `_wait_for_match` skips over:
a receive timeout, or a message whose `event` is neither `match_found`
nor `queue_timeout` (e.g. the `identified` acknowledgement). -/
def qNeutral : QInbound → Bool
  | .timeout => true
  | .msg m =>
    match pyGet m "event" .null with
    | .error _ => false
    | .ok ev => !(pyEq ev (.str "match_found") || pyEq ev (.str "queue_timeout"))

theorem isDict_exists {v : Value} (h : isDict v = true) :
    ∃ kvs, v = .dict kvs := by
  cases v <;> simp [isDict] at h ⊢

theorem pyTuple_of_iterable {v : Value} (h : iterable v = true) :
    pyTuple v = .ok (tupleList v) := by
  cases v <;> simp [iterable, pyTuple, tupleList] at h ⊢

/-- On a well-shaped payload `from_dict` succeeds and returns exactly the
field-by-field lookups with the source's defaults. -/
theorem fromDict_wellShaped (kvs : List (String × Value))
    (h : wellShaped kvs = true) : fromDict (.dict kvs) = .ok (mkGS kvs) := by
  simp only [wellShaped, Bool.and_eq_true] at h
  obtain ⟨⟨⟨⟨hOwn, hEnemy⟩, hMap⟩, hPow⟩, hSize⟩ := h
  obtain ⟨ownK, hOwnEq⟩ := isDict_exists hOwn
  obtain ⟨enemyK, hEnemyEq⟩ := isDict_exists hEnemy
  obtain ⟨mapK, hMapEq⟩ := isDict_exists hMap
  rw [hOwnEq] at hPow
  rw [hMapEq] at hSize
  obtain ⟨powK, hPowEq⟩ := isDict_exists hPow
  simp only [asDict] at hPowEq hSize
  simp only [fromDict, pyGet, hOwnEq, hEnemyEq, hMapEq, asDict, hPowEq,
    pyTuple_of_iterable hSize, mkGS, Bind.bind, Except.bind, pure, Except.pure]

/-- Events that `_wait_for_match` skips do not affect its outcome. -/
theorem waitForMatch_skips_neutral (noise events : List QInbound)
    (hn : noise.all qNeutral = true) :
    waitForMatch (noise ++ events) = waitForMatch events := by
  induction noise with
  | nil => rfl
  | cons q qs ih =>
    rw [List.all_cons, Bool.and_eq_true] at hn
    cases q with
    | timeout =>
      simpa [waitForMatch] using ih hn.2
    | msg m =>
      have h1 := hn.1
      cases hq : pyGet m "event" .null with
      | error e => simp [qNeutral, hq] at h1
      | ok ev =>
        simp only [qNeutral, hq, Bool.not_eq_true', Bool.or_eq_false_iff] at h1
        simp [waitForMatch, hq, h1.1, h1.2, ih hn.2]

/-- C5: every receive timeout on the match channel while playing sends
exactly one `get_state` message tagged with `agent_id` before the next
receive; the timeout neither ends the session nor sends anything else, and
the session state is unchanged by it. -/
theorem c5_timeout_sends_exactly_one_get_state_probe
    (agentId : String) (strat : Strategy) (st : SessionState)
    (rest : List Inbound) :
    playLoop agentId strat st (.timeout :: rest) =
      ((playLoop agentId strat st rest).1,
       .send (getStateMsg agentId) :: (playLoop agentId strat st rest).2.1,
       (playLoop agentId strat st rest).2.2) := rfl

/-- C6: the Scenario B queue payload, received by an agent whose
credentials carry agent id "a1", yields a match descriptor with match id
"m1", map "Tundra", faction "soviet" and opponent "Foe". -/
theorem c6_scenarioB_match_descriptor :
    extractMatchInfo "a1" scenarioBPayload =
      .ok { match_id := .str "m1", map_name := .str "Tundra",
            faction := .str "soviet", opponent := .str "Foe",
            settings := .dict [] } := rfl

/-- C7: a `game_end` message with result "victory" increments the wins
counter by exactly one, leaves the losses counter unchanged, invokes the
match-end hook, and terminates the match-session loop. -/
theorem c7_game_end_victory_increments_wins_and_ends_session
    (agentId : String) (strat : Strategy) (st : SessionState)
    (rest : List Inbound) :
    handleMatchMessage agentId strat st gameEndVictory =
      ({ st with wins := st.wins + 1, match_result := some gameEndVictory },
       [.callMatchEnd gameEndVictory], none) ∧
    playLoop agentId strat st (.msg gameEndVictory :: rest) =
      ({ st with wins := st.wins + 1, match_result := some gameEndVictory },
       [.callMatchEnd gameEndVictory], .gameEnd) :=
  ⟨rfl, rfl⟩

/-- C8: an `order_violations` message invokes the violation hook exactly
once with the full violation list, changes no session state, and the match
session keeps playing (the remaining events are processed as before). -/
theorem c8_violations_invoke_hook_once_and_session_continues
    (agentId : String) (strat : Strategy) (st : SessionState)
    (vs : List Value) (rest : List Inbound) :
    handleMatchMessage agentId strat st (violationsMsg vs) =
      (st, [.callViolation (.list vs)], none) ∧
    playLoop agentId strat st (.msg (violationsMsg vs) :: rest) =
      ((playLoop agentId strat st rest).1,
       .callViolation (.list vs) :: (playLoop agentId strat st rest).2.1,
       (playLoop agentId strat st rest).2.2) :=
  ⟨rfl, rfl⟩

/-- C10 counterexample: `from_dict` is not total on arbitrary mappings —
on the dict with "own" bound to the integer 3, `own.get("power", ...)`
raises `AttributeError`. -/
theorem c10_counterexample_from_dict_raises_on_non_dict_own :
    fromDict (.dict [("own", .int 3)]) = .error .attributeError := rfl

/-- C10 (amended): `from_dict` succeeds on every mapping whose `own`,
`enemy` and `map` entries (and `own.power`), when present, are mappings and
whose `map.size`, when present, is iterable; each field is then the
corresponding lookup, and absent fields take the defaults tick 0,
game_time "0:00", credits 0, power 0/0, empty lists, explored_percentage
0, map_name "Unknown" and map_size (128, 128) — as on the empty dict,
where all defaults appear at once. -/
theorem c10_from_dict_total_on_well_shaped_payloads
    (kvs : List (String × Value)) (h : wellShaped kvs = true) :
    fromDict (.dict kvs) = .ok (mkGS kvs) ∧
    fromDict (.dict []) = .ok defaultGS :=
  ⟨fromDict_wellShaped kvs h, rfl⟩

/-- C10 witness: a concrete well-shaped payload (only a `tick` entry)
parses successfully. -/
theorem c10_witness_concrete_payload_parses :
    wellShaped [("tick", .int 5)] = true ∧
    fromDict (.dict [("tick", .int 5)]) = .ok (mkGS [("tick", .int 5)]) ∧
    fromDict (.dict []) = .ok defaultGS :=
  ⟨rfl, (c10_from_dict_total_on_well_shaped_payloads [("tick", .int 5)] rfl).1,
   (c10_from_dict_total_on_well_shaped_payloads [("tick", .int 5)] rfl).2⟩

/-- C1: on a state message (type "state_update" or "state_response",
treated identically) whose payload parses and whose callback returns, the
handler invokes `on_game_state` exactly once and sends exactly one orders
message tagged with `agent_id` iff the returned order list is non-empty;
in the game loop those are the only effects before the next receive, so at
most one order batch goes out per received snapshot. -/
theorem c1_state_message_one_callback_at_most_one_send
    (agentId : String) (strat : Strategy) (st : SessionState)
    (kvs : List (String × Value)) (t : Value) (g : GameState)
    (orders : List Value) (rest : List Inbound)
    (htype : lookupStr "type" kvs = some t)
    (ht : t = .str "state_update" ∨ t = .str "state_response")
    (hparse : fromDict (dgetV kvs "state" (.dict [])) = .ok g)
    (hstrat : strat g = .ok orders) :
    handleMatchMessage agentId strat st (.dict kvs) =
      ({ st with game_state := some g },
       .callGameState g ::
         (if orders.isEmpty then [] else [.send (ordersMsg agentId orders)]),
       none) ∧
    playLoop agentId strat st (.msg (.dict kvs) :: rest) =
      ((playLoop agentId strat { st with game_state := some g } rest).1,
       (.callGameState g ::
         (if orders.isEmpty then [] else [.send (ordersMsg agentId orders)])) ++
         (playLoop agentId strat { st with game_state := some g } rest).2.1,
       (playLoop agentId strat { st with game_state := some g } rest).2.2) := by
  have hT : dgetV kvs "type" (.str "") = t := by simp [dgetV, htype]
  have hT2 : dgetV kvs "type" .null = t := by simp [dgetV, htype]
  have hSel : (pyEq t (.str "state_update") || pyEq t (.str "state_response")) = true := by
    rcases ht with h | h <;> subst h <;> rfl
  have hNotEnd : pyEq t (.str "game_end") = false := by
    rcases ht with h | h <;> subst h <;> rfl
  have hhandle : handleMatchMessage agentId strat st (.dict kvs) =
      ({ st with game_state := some g },
       .callGameState g ::
         (if orders.isEmpty then [] else [.send (ordersMsg agentId orders)]),
       none) := by
    simp only [handleMatchMessage, pyGet, hT, hSel, if_true, hparse, hstrat]
    cases orders <;> simp [pyTruthy]
  refine ⟨hhandle, ?_⟩
  simp [playLoop, hhandle, pyGet, hT2, hNotEnd]

/-- C1 witness: a concrete state message handled with a strategy that
returns one order produces one callback invocation and one tagged orders
send. -/
theorem c1_witness_concrete_state_message :
    handleMatchMessage "a1" oneOrderStrat
        { wins := 0, losses := 0, match_result := none, game_state := none }
        (.dict [("type", .str "state_update")]) =
      ({ wins := 0, losses := 0, match_result := none,
         game_state := some defaultGS },
       [.callGameState defaultGS,
        .send (ordersMsg "a1" [.dict [("type", .str "stop")]])], none) :=
  (c1_state_message_one_callback_at_most_one_send "a1" oneOrderStrat
    { wins := 0, losses := 0, match_result := none, game_state := none }
    [("type", .str "state_update")] (.str "state_update") defaultGS
    [.dict [("type", .str "stop")]] [] rfl (Or.inl rfl) rfl rfl).1

/-- C2 counterexample: with a callback that raises, a session that
receives a state message and then an order-violations message ends as
errored at the first message (one callback invocation, a "Match error"
log, no send) and never processes the second message — the match session
does not continue past the raising tick. -/
theorem c2_counterexample_session_does_not_continue :
    playLoop "a1" raisingStrat
        { wins := 0, losses := 0, match_result := none, game_state := none }
        [.msg (.dict [("type", .str "state_update")]),
         .msg (violationsMsg [.str "v1", .str "v2"])] =
      ({ wins := 0, losses := 0, match_result := none,
         game_state := some defaultGS },
       [.callGameState defaultGS, .log "Match error"], .errored) := rfl

/-- C2 (amended): when the callback raises on a state message, the
exception is caught and logged by the match-session boundary (the loop
returns normally with a "Match error" log), the tick produces no orders,
the match session ends, and the lifecycle loop continues to its next
queue cycle rather than crashing. -/
theorem c2_callback_exception_caught_logged_session_ends
    (agentId : String) (strat : Strategy) (st : SessionState)
    (kvs : List (String × Value)) (t : Value) (g : GameState) (e : PyErr)
    (rest : List Inbound)
    (htype : lookupStr "type" kvs = some t)
    (ht : t = .str "state_update" ∨ t = .str "state_response")
    (hparse : fromDict (dgetV kvs "state" (.dict [])) = .ok g)
    (hstrat : strat g = .error e) :
    playLoop agentId strat st (.msg (.dict kvs) :: rest) =
      ({ st with game_state := some g },
       [.callGameState g, .log "Match error"], .errored) ∧
    (∀ qev d cycles, waitForMatch qev = some d → pyTruthy d = true →
      mainLoopTrace agentId strat st
          ({ qevents := qev, minbounds := [.msg (.dict kvs)] } :: cycles) =
        .joinQueue :: .enterMatch d :: .matchDone .errored ::
          mainLoopTrace agentId strat { st with game_state := some g } cycles) := by
  have hT : dgetV kvs "type" (.str "") = t := by simp [dgetV, htype]
  have hSel : (pyEq t (.str "state_update") || pyEq t (.str "state_response")) = true := by
    rcases ht with h | h <;> subst h <;> rfl
  have hhandle : handleMatchMessage agentId strat st (.dict kvs) =
      ({ st with game_state := some g }, [.callGameState g], some e) := by
    simp only [handleMatchMessage, pyGet, hT, hSel, if_true, hparse, hstrat]
  have hloop : ∀ tail, playLoop agentId strat st (.msg (.dict kvs) :: tail) =
      ({ st with game_state := some g },
       [.callGameState g, .log "Match error"], .errored) := by
    intro tail
    simp [playLoop, hhandle]
  refine ⟨hloop rest, ?_⟩
  intro qev d cycles hwait htruthy
  simp [mainLoopTrace, hwait, htruthy, hloop]

/-- C2 witness: the amended behaviour at a concrete raising strategy,
state message, and queue cycle. -/
theorem c2_witness_concrete_raising_callback :
    playLoop "a1" raisingStrat
        { wins := 0, losses := 0, match_result := none, game_state := none }
        [.msg (.dict [("type", .str "state_response")])] =
      ({ wins := 0, losses := 0, match_result := none,
         game_state := some defaultGS },
       [.callGameState defaultGS, .log "Match error"], .errored) ∧
    mainLoopTrace "a1" raisingStrat
        { wins := 0, losses := 0, match_result := none, game_state := none }
        [{ qevents := [.msg (.dict [("event", .str "match_found"),
                                    ("data", .dict [("id", .str "m1")])])],
           minbounds := [.msg (.dict [("type", .str "state_response")])] }] =
      [.joinQueue, .enterMatch (.dict [("id", .str "m1")]),
       .matchDone .errored] :=
  ⟨(c2_callback_exception_caught_logged_session_ends "a1" raisingStrat
      { wins := 0, losses := 0, match_result := none, game_state := none }
      [("type", .str "state_response")] (.str "state_response") defaultGS
      .valueError [] rfl (Or.inr rfl) rfl rfl).1,
   (c2_callback_exception_caught_logged_session_ends "a1" raisingStrat
      { wins := 0, losses := 0, match_result := none, game_state := none }
      [("type", .str "state_response")] (.str "state_response") defaultGS
      .valueError [] rfl (Or.inr rfl) rfl rfl).2
     [.msg (.dict [("event", .str "match_found"),
                   ("data", .dict [("id", .str "m1")])])]
     (.dict [("id", .str "m1")]) [] rfl rfl⟩

/-- C3: for a well-shaped state payload carrying own-unit and own-building
lists, parsing via `from_dict` then reading `unit_count` and
`building_count` returns exactly the lengths of those lists. -/
theorem c3_counts_round_trip
    (kvs okvs : List (String × Value)) (us bs : List Value)
    (h : wellShaped kvs = true)
    (hown : lookupStr "own" kvs = some (.dict okvs))
    (hu : lookupStr "units" okvs = some (.list us))
    (hb : lookupStr "buildings" okvs = some (.list bs)) :
    ∃ g, fromDict (.dict kvs) = .ok g ∧
      unitCount g = .ok us.length ∧ buildingCount g = .ok bs.length := by
  refine ⟨mkGS kvs, fromDict_wellShaped kvs h, ?_, ?_⟩ <;>
    simp [mkGS, unitCount, buildingCount, dgetV, hown, asDict, hu, hb, pyLen]

/-- C3 witness: a concrete payload with two units and one building
round-trips its counts. -/
theorem c3_witness_concrete_counts :
    ∃ g, fromDict (.dict [("own", .dict
        [("units", .list [.int 1, .int 2]),
         ("buildings", .list [.str "b"])])]) = .ok g ∧
      unitCount g = .ok 2 ∧ buildingCount g = .ok 1 :=
  c3_counts_round_trip
    [("own", .dict [("units", .list [.int 1, .int 2]),
                    ("buildings", .list [.str "b"])])]
    [("units", .list [.int 1, .int 2]), ("buildings", .list [.str "b"])]
    [.int 1, .int 2] [.str "b"] rfl rfl rfl rfl

/-- C4: a `queue_timeout` event (after any skipped events) makes
`_wait_for_match` return no payload regardless of later events, and the
lifecycle loop then performs a fresh queue-join before any further
waiting — it never enters a match session for that cycle. -/
theorem c4_queue_timeout_forces_fresh_queue_join
    (noise more : List QInbound) (qt : Value)
    (hn : noise.all qNeutral = true)
    (hqt : pyGet qt "event" .null = .ok (.str "queue_timeout"))
    (agentId : String) (strat : Strategy) (st : SessionState)
    (minb : List Inbound) (cycles : List Cycle) :
    waitForMatch (noise ++ .msg qt :: more) = none ∧
    mainLoopTrace agentId strat st
        ({ qevents := noise ++ .msg qt :: more, minbounds := minb } :: cycles) =
      .joinQueue :: mainLoopTrace agentId strat st cycles := by
  have hw : waitForMatch (noise ++ .msg qt :: more) = none := by
    rw [waitForMatch_skips_neutral noise _ hn]
    simp [waitForMatch, hqt, pyEq]
  exact ⟨hw, by simp [mainLoopTrace, hw]⟩

/-- C4 witness: a timeout, an `identified` acknowledgement, then a
`queue_timeout` yields no match and one fresh queue-join per cycle. -/
theorem c4_witness_concrete_queue_timeout :
    waitForMatch [.timeout, .msg (.dict [("type", .str "identified")]),
                  .msg (.dict [("event", .str "queue_timeout")])] = none ∧
    mainLoopTrace "a1" noOrdersStrat
        { wins := 0, losses := 0, match_result := none, game_state := none }
        [{ qevents := [.timeout, .msg (.dict [("type", .str "identified")]),
                       .msg (.dict [("event", .str "queue_timeout")])],
           minbounds := [] },
         { qevents := [], minbounds := [] }] =
      [.joinQueue, .joinQueue] :=
  c4_queue_timeout_forces_fresh_queue_join
    [.timeout, .msg (.dict [("type", .str "identified")])] []
    (.dict [("event", .str "queue_timeout")]) rfl rfl "a1" noOrdersStrat
    { wins := 0, losses := 0, match_result := none, game_state := none }
    [] [{ qevents := [], minbounds := [] }]

/-- C9: a `match_found` event whose data payload is absent or an empty
mapping makes `_wait_for_match` return the empty payload, and the
lifecycle loop treats it as no match: it re-joins the queue and never
enters a match session for that event. -/
theorem c9_empty_match_payload_requeues
    (noise more : List QInbound) (m : Value)
    (hn : noise.all qNeutral = true)
    (hev : pyGet m "event" .null = .ok (.str "match_found"))
    (hdata : pyGet m "data" (.dict []) = .ok (.dict []))
    (agentId : String) (strat : Strategy) (st : SessionState)
    (minb : List Inbound) (cycles : List Cycle) :
    waitForMatch (noise ++ .msg m :: more) = some (.dict []) ∧
    mainLoopTrace agentId strat st
        ({ qevents := noise ++ .msg m :: more, minbounds := minb } :: cycles) =
      .joinQueue :: mainLoopTrace agentId strat st cycles := by
  have hw : waitForMatch (noise ++ .msg m :: more) = some (.dict []) := by
    rw [waitForMatch_skips_neutral noise _ hn]
    simp [waitForMatch, hev, hdata, pyEq]
  refine ⟨hw, ?_⟩
  simp [mainLoopTrace, hw, pyTruthy]

/-- C9 witness: a `match_found` message with no data key re-queues without
entering a match. -/
theorem c9_witness_concrete_dataless_match_found :
    waitForMatch [.msg (.dict [("event", .str "match_found")])] =
      some (.dict []) ∧
    mainLoopTrace "a1" noOrdersStrat
        { wins := 0, losses := 0, match_result := none, game_state := none }
        [{ qevents := [.msg (.dict [("event", .str "match_found")])],
           minbounds := [] },
         { qevents := [], minbounds := [] }] =
      [.joinQueue, .joinQueue] :=
  c9_empty_match_payload_requeues [] [] (.dict [("event", .str "match_found")])
    rfl rfl rfl "a1" noOrdersStrat
    { wins := 0, losses := 0, match_result := none, game_state := none }
    [] [{ qevents := [], minbounds := [] }]

end IronCurtain
